import Mathlib

/-!
Formal model of the BRDK Node-RED OPC UA client library.

The definitions below are a shallow embedding of:
 * `src/lib/opcua-data-converter.js` — pure data-type coercion functions;
 * `src/lib/opcua-connection.js` — security mode/policy resolution;
 * `opcua-client.js` — the client node: command queue, replay, action
   handlers, subscription registry and lifecycle event handlers.

JavaScript numbers are modelled as `JsNum` (NaN or a finite rational);
JavaScript values reaching the converter as `JVal`.  Branches of the source
that delegate to external library coercers (Int64 pairs, Date parsing,
Buffers, JSON parsing, node-opcua NodeId/LocalizedText coercion) are
represented opaquely by a tagged constructor: no verified property depends
on their result, only on which branch was taken.
-/

namespace Opcua

/-- A JavaScript number: NaN or a finite value (modelled as a rational;
infinities are not needed by any verified property). -/
inductive JsNum where
  | nan : JsNum
  | num : ℚ → JsNum
  deriving DecidableEq

/-- A JavaScript value as it reaches the converter.  JS arrays and plain
objects are outside the modelled value domain (no verified property supplies
one). -/
inductive JVal where
  | jnum : JsNum → JVal
  | jstr : String → JVal
  | jbool : Bool → JVal
  | jnull : JVal
  deriving DecidableEq

/-- JS `String.prototype.trim`: strip whitespace from both ends.  Written
over the character list so it computes by structural recursion. -/
def jsTrim (s : String) : String :=
  ⟨((s.data.dropWhile Char.isWhitespace).reverse.dropWhile
      Char.isWhitespace).reverse⟩

/-- JS `String.prototype.toLowerCase` (ASCII range, which covers every
type and unit name the library uses). -/
def jsToLower (s : String) : String :=
  ⟨s.data.map Char.toLower⟩

/-- The value of a decimal digit character. -/
def digitVal (c : Char) : Option ℕ :=
  if c.isDigit then some (c.toNat - 48) else none

/-- Parse a nonempty all-digit character list as a natural number. -/
def parseDigits (l : List Char) : Option ℕ :=
  match l with
  | [] => none
  | _ => l.foldl (fun acc c =>
      match acc, digitVal c with
      | some n, some d => some (n * 10 + d)
      | _, _ => none) (some 0)

/-- Parse an optional-sign decimal integer numeral. -/
def parseIntChars (l : List Char) : Option ℤ :=
  match l with
  | '-' :: rest => (parseDigits rest).map (fun n => -(n : ℤ))
  | '+' :: rest => (parseDigits rest).map (fun n => (n : ℤ))
  | _ => (parseDigits l).map (fun n => (n : ℤ))

/-- Parse a string as an optional-sign decimal integer numeral. -/
def parseDecimalInt (s : String) : Option ℤ :=
  parseIntChars s.data

/-- JS `Number(value)` conversion.  String conversion is modelled for
optional-sign decimal integer numerals (the only numerals the verified
properties use); any other non-empty string converts to NaN, the empty or
all-whitespace string to 0, exactly as in JS. -/
def jsToNumber (value : JVal) : JsNum :=
  match value with
  | .jnum n => n
  | .jstr s =>
    let t := jsTrim s
    if t.data.isEmpty then .num 0
    else
      match parseDecimalInt t with
      | some n => .num n
      | none => .nan
  | .jbool b => .num (if b then 1 else 0)
  | .jnull => .num 0

/-- JS `Math.round`: round half toward positive infinity; NaN propagates. -/
def jsRound (v : JsNum) : JsNum :=
  match v with
  | .nan => .nan
  | .num q => .num ((⌊q + 1/2⌋ : ℤ) : ℚ)

/-- `clampInt(value, min, max)` (opcua-data-converter.js lines 323–327):
`Math.round`, then NaN maps to 0, then clamp into `[lo, hi]`.  The source
parameters are named `min`/`max`; renamed `lo`/`hi` to avoid shadowing. -/
def clampInt (value : JsNum) (lo hi : ℤ) : ℤ :=
  match jsRound value with
  | .nan => 0
  | .num q => max lo (min hi ⌊q⌋)

/-- `coerceBoolean` (lines 332–336). -/
def coerceBoolean (value : JVal) : Bool :=
  match value with
  | .jbool b => b
  | .jstr s => jsToLower s == "true" || s == "1"
  | .jnum .nan => false
  | .jnum (.num q) => q != 0
  | .jnull => false

/-- JS `parseFloat(value)` as used by the Float/Double branches.  Strings are
parsed as optional-sign decimal integer numerals (fractional and exponent
forms are outside the modelled domain); a non-numeric, boolean, empty or
null input parses to NaN, exactly as in JS. -/
def jsParseFloat (value : JVal) : JsNum :=
  match value with
  | .jnum n => n
  | .jstr s =>
    match parseDecimalInt (jsTrim s) with
    | some n => .num n
    | none => .nan
  | .jbool _ => .nan
  | .jnull => .nan

/-- JS `String(value)`.  Number formatting is modelled only as far as the
verified properties need: integral rationals print as decimal numerals. -/
def jsToString (value : JVal) : String :=
  match value with
  | .jstr s => s
  | .jbool b => if b then "true" else "false"
  | .jnull => "null"
  | .jnum .nan => "NaN"
  | .jnum (.num q) => if q.den = 1 then toString q.num else toString q

/-- The `.replace(/\s*Array$/i, "")` part of the base-type computation:
drop a trailing case-insensitive `Array`; the whitespace the regex would
also consume becomes trailing whitespace removed by the subsequent
`.trim()` in `baseTypeName`. -/
def stripArraySuffix (s : String) : String :=
  if List.isSuffixOf "array".data (jsToLower s).data then
    ⟨s.data.take (s.data.length - 5)⟩
  else s

/-- `datatype.replace(/\s*Array$/i, "").trim()`, the base-type computation
shared by `coerceScalarValue`, `coerceArrayValue` and `toOpcuaDataType`. -/
def baseTypeName (datatype : String) : String :=
  jsTrim (stripArraySuffix datatype)

/-- `isArrayType` (lines 126–128): the regex test `/Array$/i`. -/
def isArrayType (datatype : String) : Bool :=
  List.isSuffixOf "array".data (jsToLower datatype).data

/-- The `opcua.DataType` enum values used by `toOpcuaDataType`. -/
inductive DataType where
  | Null | Boolean | SByte | Byte | Int16 | UInt16 | Int32 | UInt32
  | Int64 | UInt64 | Float | Double | String | DateTime | Guid | ByteString
  | XmlElement | NodeId | LocalizedText | QualifiedName | ExtensionObject
  deriving DecidableEq

/-- `toOpcuaDataType` (lines 86–118).  The JS falsy check `!datatype`
is modelled by the empty string (undefined/null inputs are outside the
modelled domain of a `String` argument). -/
def toOpcuaDataType (datatype : String) : DataType :=
  if datatype = "" then .Null
  else
    match baseTypeName datatype with
    | "Boolean" => .Boolean
    | "SByte" => .SByte
    | "Int8" => .SByte
    | "Byte" => .Byte
    | "UInt8" => .Byte
    | "Int16" => .Int16
    | "UInt16" => .UInt16
    | "Int32" => .Int32
    | "UInt32" => .UInt32
    | "Int64" => .Int64
    | "UInt64" => .UInt64
    | "Float" => .Float
    | "Double" => .Double
    | "String" => .String
    | "DateTime" => .DateTime
    | "Guid" => .Guid
    | "ByteString" => .ByteString
    | "XmlElement" => .XmlElement
    | "NodeId" => .NodeId
    | "LocalizedText" => .LocalizedText
    | "QualifiedName" => .QualifiedName
    | "ExtensionObject" => .ExtensionObject
    | _ => .Null

/-- The result of a converter coercion.  `cOpaque tag v` records a branch
that delegates to an external coercer (tagged with the branch taken);
`cRaw v` is the untouched-passthrough default branch. -/
inductive CoercedVal where
  | cBool : Bool → CoercedVal
  | cInt : ℤ → CoercedVal
  | cNum : JsNum → CoercedVal
  | cStr : String → CoercedVal
  | cOpaque : String → JVal → CoercedVal
  | cRaw : JVal → CoercedVal
  | cList : List CoercedVal → CoercedVal

/-- The typed-array constructors of `TYPED_ARRAY_MAP` (lines 22–33). -/
inductive TypedKind where
  | i8 | u8 | i16 | u16 | i32 | u32 | f32 | f64
  deriving DecidableEq

/-- `TYPED_ARRAY_MAP` as a lookup from base type name to constructor. -/
def typedArrayMap (baseType : String) : Option TypedKind :=
  match baseType with
  | "SByte" => some .i8
  | "Int8" => some .i8
  | "Byte" => some .u8
  | "UInt8" => some .u8
  | "Int16" => some .i16
  | "UInt16" => some .u16
  | "Int32" => some .i32
  | "UInt32" => some .u32
  | "Float" => some .f32
  | "Double" => some .f64
  | _ => none

/-- Truncation toward zero (the JS ToIntegerOrInfinity step on finite
values). -/
def jsTrunc (q : ℚ) : ℤ :=
  if q < 0 then -(⌊-q⌋) else ⌊q⌋

/-- JS ToUintN on a number: NaN to 0, else truncate toward zero and reduce
modulo 2^bits. -/
def toUintN (bits : ℕ) (v : JsNum) : ℤ :=
  match v with
  | .nan => 0
  | .num q => jsTrunc q % (2 ^ bits : ℤ)

/-- JS ToIntN on a number: ToUintN then reinterpret as signed. -/
def toIntN (bits : ℕ) (v : JsNum) : ℤ :=
  let u := toUintN bits v
  if u ≥ 2 ^ (bits - 1) then u - 2 ^ bits else u

/-- The element conversion each typed-array constructor applies when storing
a number.  Float32 rounding is not modelled (float precision is outside the
verified properties); Float64 stores the number unchanged. -/
def typedElem (kind : TypedKind) (v : JsNum) : CoercedVal :=
  match kind with
  | .i8 => .cInt (toIntN 8 v)
  | .u8 => .cInt (toUintN 8 v)
  | .i16 => .cInt (toIntN 16 v)
  | .u16 => .cInt (toUintN 16 v)
  | .i32 => .cInt (toIntN 32 v)
  | .u32 => .cInt (toUintN 32 v)
  | .f32 => .cNum v
  | .f64 => .cNum v

/-- JS `String.prototype.split(",")` over the character list: the pieces
between commas, empty pieces included. -/
def splitCommaChars (l : List Char) : List (List Char) :=
  match l with
  | [] => [[]]
  | c :: rest =>
    let r := splitCommaChars rest
    if c = ',' then [] :: r
    else
      match r with
      | h :: t => (c :: h) :: t
      | [] => [[c]]

/-- `parseToArray` (lines 395–401).  The `Array.isArray` passthrough branch
is outside the modelled value domain (see `JVal`). -/
def parseToArray (value : JVal) : List JVal :=
  match value with
  | .jstr s =>
    if s.data.contains ',' then
      (splitCommaChars s.data).map (fun t => JVal.jstr (jsTrim ⟨t⟩))
    else [value]
  | v => [v]

/-- `coerceArrayValue` (lines 218–260).  The ExtensionObject and Variant
element branches delegate to external parsing/construction and are recorded
opaquely. -/
def coerceArrayValue (datatype : String) (value : JVal) : CoercedVal :=
  let baseType := baseTypeName datatype
  let items := parseToArray value
  match typedArrayMap baseType with
  | some kind => .cList (items.map (fun item => typedElem kind (jsToNumber item)))
  | none =>
    if baseType = "Boolean" then .cList (items.map (fun item => .cBool (coerceBoolean item)))
    else if baseType = "String" then .cList (items.map (fun item => .cStr (jsToString item)))
    else if baseType = "ExtensionObject" then .cList (items.map (fun item => .cOpaque "ExtensionObject" item))
    else if baseType = "Variant" then .cList (items.map (fun item => .cOpaque "Variant" item))
    else .cList (items.map (fun item => .cRaw item))

/-- `coerceScalarValue` (lines 139–202).  Branches delegating to external
library coercers or JSON/date/buffer parsing (Int64, UInt64, DateTime,
ByteString, LocalizedText, NodeId, QualifiedName, ExtensionObject) are
recorded opaquely, tagged with the branch taken. -/
def coerceScalarValue (datatype : String) (value : JVal) : CoercedVal :=
  match baseTypeName datatype with
  | "Boolean" => .cBool (coerceBoolean value)
  | "Int8" => .cInt (clampInt (jsToNumber value) (-128) 127)
  | "SByte" => .cInt (clampInt (jsToNumber value) (-128) 127)
  | "Byte" => .cInt (clampInt (jsToNumber value) 0 255)
  | "UInt8" => .cInt (clampInt (jsToNumber value) 0 255)
  | "Int16" => .cInt (clampInt (jsToNumber value) (-32768) 32767)
  | "UInt16" => .cInt (clampInt (jsToNumber value) 0 65535)
  | "Int32" => .cInt (clampInt (jsToNumber value) (-2147483648) 2147483647)
  | "UInt32" => .cInt (clampInt (jsToNumber value) 0 4294967295)
  | "Int64" => .cOpaque "Int64" value
  | "UInt64" => .cOpaque "UInt64" value
  | "Float" => .cNum (jsParseFloat value)
  | "Double" => .cNum (jsParseFloat value)
  | "String" => .cStr (jsToString value)
  | "DateTime" => .cOpaque "DateTime" value
  | "ByteString" => .cOpaque "ByteString" value
  | "LocalizedText" => .cOpaque "LocalizedText" value
  | "NodeId" => .cOpaque "NodeId" value
  | "QualifiedName" => .cOpaque "QualifiedName" value
  | "ExtensionObject" => .cOpaque "ExtensionObject" value
  | _ => .cRaw value

/-- An `opcua.Variant` as built by the converter: data type, arrayness and
coerced value. -/
structure Variant where
  dataType : DataType
  isArray : Bool
  value : CoercedVal

/-- `buildVariant` (lines 273–292). -/
def buildVariant (datatype : String) (value : JVal) : Variant :=
  if datatype = "" then ⟨.Null, false, .cRaw .jnull⟩
  else if isArrayType datatype then
    ⟨toOpcuaDataType datatype, true, coerceArrayValue datatype value⟩
  else
    ⟨toOpcuaDataType datatype, false, coerceScalarValue datatype value⟩

/-- An `opcua.DataValue` as built for a write: the variant plus optional
source timestamp and status code (both opaque to the verified
properties). -/
structure DataValue where
  value : Variant
  sourceTimestamp : Option JVal
  statusCode : Option ℤ

/-- `buildDataValue` (lines 303–316).  The JS truthiness test on the
timestamp is modelled by option presence. -/
def buildDataValue (datatype : String) (value : JVal)
    (sourceTimestamp : Option JVal) (statusCode : Option ℤ) : DataValue :=
  { value := buildVariant datatype value
    sourceTimestamp := sourceTimestamp
    statusCode := statusCode }

/-- Subscription creation parameters (the argument record of
`ClientSubscription.create`). -/
structure SubscriptionParameters where
  requestedPublishingInterval : ℚ
  requestedLifetimeCount : ℕ
  requestedMaxKeepAliveCount : ℕ
  maxNotificationsPerPublish : ℕ
  publishingEnabled : Bool
  priority : ℕ
  deriving DecidableEq

/-- `buildSubscriptionParameters` (lines 411–420): data preset. -/
def buildSubscriptionParameters (publishingInterval : ℚ) : SubscriptionParameters :=
  ⟨publishingInterval, 60, 10, 10, true, 10⟩

/-- `buildEventSubscriptionParameters` (lines 428–437): event preset. -/
def buildEventSubscriptionParameters (publishingInterval : ℚ) : SubscriptionParameters :=
  ⟨publishingInterval, 120, 3, 4, true, 1⟩

/-- `toMilliseconds` (lines 448–451); `multipliers[unit] || 1000`. -/
def toMilliseconds (time : ℚ) (unit : String) : ℚ :=
  let mult : ℚ :=
    match unit with
    | "ms" => 1
    | "s" => 1000
    | "m" => 60000
    | "h" => 3600000
    | _ => 1000
  time * mult

/-- The bounded integer scalar types of `coerceScalarValue` with the clamp
bounds the source hard-codes for each. -/
def boundedIntTypes : List (String × ℤ × ℤ) :=
  [("SByte", -128, 127), ("Int8", -128, 127),
   ("Byte", 0, 255), ("UInt8", 0, 255),
   ("Int16", -32768, 32767), ("UInt16", 0, 65535),
   ("Int32", -2147483648, 2147483647), ("UInt32", 0, 4294967295)]

/-- One element of `msg.items` as consumed by the write handler. -/
structure WriteItem where
  nodeId : String
  datatype : String
  value : JVal
  timestamp : Option JVal

/-- The `writeValues` computation of `actionWrite` (opcua-client.js lines
406–414): the DataValues transmitted by `session.write`, one per item.
`msgTimestamp` models `msg.sourceTimestamp || msg.timestamp`. -/
def writeTransmittedValues (items : List WriteItem) (msgTimestamp : Option JVal) :
    List DataValue :=
  items.map (fun item =>
    buildDataValue item.datatype item.value
      (item.timestamp.orElse (fun _ => msgTimestamp)) none)

/-- The node-opcua `MessageSecurityMode` enum. -/
inductive MessageSecurityMode where
  | Invalid | None | Sign | SignAndEncrypt
  deriving DecidableEq

/-- Numeric values of the node-opcua enum (`Invalid = 0`). -/
def MessageSecurityMode.toNat (m : MessageSecurityMode) : ℕ :=
  match m with
  | .Invalid => 0
  | .None => 1
  | .Sign => 2
  | .SignAndEncrypt => 3

/-- JS truthiness of an enum value (only `Invalid`, value 0, is falsy). -/
def MessageSecurityMode.truthy (m : MessageSecurityMode) : Bool :=
  m.toNat != 0

/-- The object literal of `resolveSecurityMode` (opcua-connection.js lines
85–93), as a finite lookup. -/
def securityModeMap (mode : String) : Option MessageSecurityMode :=
  match mode with
  | "None" => some .None
  | "Sign" => some .Sign
  | "SignAndEncrypt" => some .SignAndEncrypt
  | "NONE" => some .None
  | "SIGN" => some .Sign
  | "SIGNANDENCRYPT" => some .SignAndEncrypt
  | _ => none

/-- `resolveSecurityMode` (lines 84–95): `map[mode] || MessageSecurityMode.None`.
The option models a null/undefined argument (whose property lookup yields
undefined); the truthiness test models the JS `||`. -/
def resolveSecurityMode (mode : Option String) : MessageSecurityMode :=
  match mode with
  | none => .None
  | some m =>
    match securityModeMap m with
    | some v => if v.truthy then v else .None
    | none => .None

/-- The node-opcua `SecurityPolicy` enum (whose values are URI strings). -/
inductive SecurityPolicy where
  | None | Basic128 | Basic192 | Basic192Rsa15 | Basic256Rsa15
  | Basic256Sha256 | Aes128_Sha256_RsaOaep | Aes256_Sha256_RsaPss
  | Basic128Rsa15 | Basic256
  deriving DecidableEq

/-- node-opcua `SecurityPolicy` values are nonempty URI strings, hence
always JS-truthy. -/
def SecurityPolicy.truthy (_ : SecurityPolicy) : Bool := true

/-- The object literal of `resolveSecurityPolicy` (lines 104–115). -/
def securityPolicyMap (policy : String) : Option SecurityPolicy :=
  match policy with
  | "None" => some .None
  | "Basic128" => some .Basic128
  | "Basic192" => some .Basic192
  | "Basic192Rsa15" => some .Basic192Rsa15
  | "Basic256Rsa15" => some .Basic256Rsa15
  | "Basic256Sha256" => some .Basic256Sha256
  | "Aes128_Sha256_RsaOaep" => some .Aes128_Sha256_RsaOaep
  | "Aes256_Sha256_RsaPss" => some .Aes256_Sha256_RsaPss
  | "Basic128Rsa15" => some .Basic128Rsa15
  | "Basic256" => some .Basic256
  | _ => none

/-- `resolveSecurityPolicy` (lines 103–117): `map[policy] || SecurityPolicy.None`. -/
def resolveSecurityPolicy (policy : Option String) : SecurityPolicy :=
  match policy with
  | none => .None
  | some p =>
    match securityPolicyMap p with
    | some v => if v.truthy then v else .None
    | none => .None

/-!
## Client node state machine (opcua-client.js)

The client node is modelled as a state machine.  `ClientState` holds the
internal state fields of the node constructor (lines 96–104); handlers are
functions `ClientState → ... → ClientState × List Out`, returning the
messages, status notifications, warnings and completion callbacks they emit,
in order.  External asynchronous completions (transport loss clearing the
session, automatic reconnection succeeding, the protocol engine delivering a
change notification) arrive as events of the `Event` type.

Protocol-level monitored items are tracked in `liveItems`: a change
notification can be delivered only for a currently live protocol item.
Live items are created exactly where the source calls
`ClientMonitoredItem.create` / `ClientMonitoredItemGroup.create`, and die
with the session or subscription that owns them (a protocol guarantee of
the external engine).
-/

/-- Monitored-item handles are abstracted to the one bit the handlers
observe: whether a later `terminate()` call on the handle succeeds. -/
abbrev Handle := Bool

/-- A command: one inbound message.  `action` is the resolved action string
(`msg.action || msg.payload.action || node.action`); `itemKeys` the nodeIds
of `msg.items`; `interval` the resolved sampling/publishing interval
(`msg.interval || toMilliseconds(node.time, node.timeUnit)`); `topic` the
`msg.topic` used by the events action; `handleOk` the terminate-behaviour
of any protocol handle this command creates. -/
structure Cmd where
  id : ℕ
  action : String
  itemKeys : List String
  interval : ℚ
  topic : String
  handleOk : Bool
  deriving DecidableEq

/-- A subscription object: the parameters it was created with. -/
structure Subscription where
  parameters : SubscriptionParameters
  deriving DecidableEq

/-- `ensureSubscription(msg, forEvents)` (opcua-client.js lines 1095–1123):
create the subscription if absent — `if (node.subscription) return` —
choosing the event or data parameter preset; no-op otherwise. -/
def ensureSubscription (subscription : Option Subscription) (interval : ℚ)
    (forEvents : Bool) : Option Subscription :=
  match subscription with
  | some sub => some sub
  | none =>
    let params :=
      if forEvents then buildEventSubscriptionParameters interval
      else buildSubscriptionParameters interval
    some ⟨params⟩

/-- Observable outputs of the node, in emission order. -/
inductive Out where
  /-- a command was routed to its action handler (`routeAction` dispatch) -/
  | exec : Cmd → Out
  /-- `done(err)`: the command's completion callback invoked with a failure -/
  | cbFail : ℕ → String → Out
  /-- `done()`: the command's completion callback invoked without error -/
  | cbOk : ℕ → Out
  /-- a status/error notification on output 2 (`setStatus`) -/
  | statusMsg : String → Out
  /-- a result message on output 1 (payload abstracted to a label) -/
  | dataMsg : String → Out
  /-- `node.warn` -/
  | warnMsg : String → Out
  /-- `node.error` -/
  | errMsg : String → Out
  /-- a change notification for a monitored item delivered on output 1 -/
  | notifMsg : String → Out
  deriving DecidableEq

/-- Internal state fields of the client node (lines 96–104), plus the
protocol-level live monitored items. -/
structure ClientState where
  /-- `node.session !== null` -/
  session : Bool
  /-- `node.session.isReconnecting` -/
  isReconnecting : Bool
  /-- `node.client !== null` -/
  client : Bool
  subscription : Option Subscription
  /-- `node.monitoredItems`: a JS Map, modelled as an insertion-ordered
  association list with unique keys -/
  monitoredItems : List (String × Handle)
  /-- protocol-level monitored items able to deliver change notifications -/
  liveItems : List String
  cmdQueue : List Cmd
  isClosing : Bool
  connectOnStart : Bool
  hasConnected : Bool
  deriving DecidableEq

/-- The state after the node constructor ran (lines 96–104): empty registry
and queue, nothing connected. -/
def initialState : ClientState :=
  { session := false, isReconnecting := false, client := false
    subscription := none, monitoredItems := [], liveItems := []
    cmdQueue := [], isClosing := false, connectOnStart := true
    hasConnected := false }

/-- The keys of the action-handler table of `routeAction` (lines 287–308). -/
def knownActions : List String :=
  ["read", "write", "subscribe", "monitor", "unsubscribe",
   "deletesubscription", "browse", "events", "info", "build", "register",
   "unregister", "acknowledge", "history", "readfile", "writefile",
   "connect", "disconnect", "reconnect", "method"]

/-- Connection-control actions, which bypass the command queue. -/
def isControlAction (action : String) : Bool :=
  action == "connect" || action == "disconnect" || action == "reconnect"

/-- Actions whose handlers create monitored items. -/
def isItemCreating (action : String) : Bool :=
  action == "subscribe" || action == "monitor" || action == "events"

/-- `assertSession` (lines 1241–1248), success condition only:
`node.session && !node.session.isReconnecting`. -/
def assertSessionOk (s : ClientState) : Bool :=
  s.session && !s.isReconnecting

/-- JS `Map.prototype.set`: overwrite in place when the key exists, append
otherwise. -/
def mapSet (m : List (String × Handle)) (k : String) (v : Handle) :
    List (String × Handle) :=
  if m.any (fun p => p.1 == k) then
    m.map (fun p => if p.1 == k then (k, v) else p)
  else m ++ [(k, v)]

/-- JS `Map.prototype.delete`. -/
def mapDelete (m : List (String × Handle)) (k : String) :
    List (String × Handle) :=
  m.filter (fun p => p.1 != k)

/-- JS `Map.prototype.get`. -/
def lookupItem (m : List (String × Handle)) (k : String) : Option Handle :=
  (m.find? (fun p => p.1 == k)).map (fun p => p.2)

/-- The registration loop of `actionMonitor` (lines 529–565): one `mapSet`
per item. -/
def monLoop (m : List (String × Handle)) (keys : List String) (handleOk : Bool) :
    List (String × Handle) :=
  match keys with
  | [] => m
  | k :: rest => monLoop (mapSet m k handleOk) rest handleOk

/-- `actionSubscribe` (lines 440–498).  A single item creates an individual
`ClientMonitoredItem` registered in the map; multiple items create a
`ClientMonitoredItemGroup`, whose items become live but are not entered in
`node.monitoredItems` (the source registers only the single-item case). -/
def actionSubscribe (s : ClientState) (c : Cmd) : ClientState × List Out :=
  if !assertSessionOk s then
    (s, [Out.statusMsg "no session", Out.errMsg "No active OPC UA session", Out.cbOk c.id])
  else if c.itemKeys.isEmpty then
    (s, [Out.warnMsg "No items to subscribe", Out.cbOk c.id])
  else
    let s1 := { s with subscription := ensureSubscription s.subscription c.interval false }
    match c.itemKeys with
    | [key] =>
      let s2 := { s1 with monitoredItems := mapSet s1.monitoredItems key c.handleOk
                          liveItems := s1.liveItems ++ [key] }
      (s2, [Out.statusMsg "subscribing", Out.statusMsg "subscribed", Out.cbOk c.id])
    | keys =>
      let s2 := { s1 with liveItems := s1.liveItems ++ keys }
      (s2, [Out.statusMsg "subscribing", Out.statusMsg "subscribed",
            Out.statusMsg "subscribed", Out.cbOk c.id])

/-- `actionMonitor` (lines 505–572): like subscribe, with a deadband filter
(not observable here); every item is individually registered. -/
def actionMonitor (s : ClientState) (c : Cmd) : ClientState × List Out :=
  if !assertSessionOk s then
    (s, [Out.statusMsg "no session", Out.errMsg "No active OPC UA session", Out.cbOk c.id])
  else if c.itemKeys.isEmpty then
    (s, [Out.warnMsg "No items to monitor", Out.cbOk c.id])
  else
    let s1 := { s with subscription := ensureSubscription s.subscription c.interval false }
    let s2 := { s1 with monitoredItems := monLoop s1.monitoredItems c.itemKeys c.handleOk
                        liveItems := s1.liveItems ++ c.itemKeys }
    (s2, [Out.statusMsg "monitoring", Out.statusMsg "monitoring", Out.cbOk c.id])

/-- `actionEvents` (lines 686–746): one event monitored item registered
under the key `event:<nodeId>`; `msg.topic || "i=2253"`. -/
def actionEvents (s : ClientState) (c : Cmd) : ClientState × List Out :=
  if !assertSessionOk s then
    (s, [Out.statusMsg "no session", Out.errMsg "No active OPC UA session", Out.cbOk c.id])
  else
    let s1 := { s with subscription := ensureSubscription s.subscription c.interval true }
    let eventNodeId := if c.topic = "" then "i=2253" else c.topic
    let key := "event:" ++ eventNodeId
    let s2 := { s1 with monitoredItems := mapSet s1.monitoredItems key c.handleOk
                        liveItems := s1.liveItems ++ [key] }
    (s2, [Out.statusMsg "subscribing", Out.statusMsg "subscribed", Out.cbOk c.id])

/-- The per-item loop of `actionUnsubscribe` (lines 580–590): a key found in
the map is terminated and deleted (the delete is skipped and a warning
emitted when `terminate()` throws); an unknown key is skipped without any
output. -/
def unsubLoop (s : ClientState) (keys : List String) : ClientState × List Out :=
  match keys with
  | [] => (s, [])
  | key :: rest =>
    let first : ClientState × List Out :=
      match lookupItem s.monitoredItems key with
      | some handleOk =>
        if handleOk then
          ({ s with monitoredItems := mapDelete s.monitoredItems key
                    liveItems := s.liveItems.erase key }, ([] : List Out))
        else
          (s, [Out.warnMsg ("Unsubscribe error for " ++ key)])
      | none => (s, [])
    ((unsubLoop first.1 rest).1, first.2 ++ (unsubLoop first.1 rest).2)

/-- `actionUnsubscribe` (lines 577–596).  Note it performs no session
assertion and reports the full requested item count in its payload. -/
def actionUnsubscribe (s : ClientState) (c : Cmd) : ClientState × List Out :=
  ((unsubLoop s c.itemKeys).1,
   (unsubLoop s c.itemKeys).2 ++
    [Out.dataMsg ("Unsubscribed from " ++ toString c.itemKeys.length ++ " item(s)"),
     Out.statusMsg "subscribed", Out.cbOk c.id])

/-- `terminateSubscription` (lines 1167–1177): terminate the subscription
(its protocol items die with it), null the field, clear the registry.  The
subscription's own `terminated` event handler fires during `terminate()`,
emitting the `terminated` status. -/
def terminateSubscription (s : ClientState) : ClientState × List Out :=
  match s.subscription with
  | some _ =>
    ({ s with subscription := none, monitoredItems := [], liveItems := [] },
     [Out.statusMsg "terminated"])
  | none => (s, [])

/-- `actionDeleteSubscription` (lines 601–611). -/
def actionDeleteSubscription (s : ClientState) (c : Cmd) : ClientState × List Out :=
  ((terminateSubscription s).1,
   (terminateSubscription s).2 ++
    [Out.dataMsg "Subscription deleted", Out.statusMsg "session active",
     Out.cbOk c.id])

/-- `closeSession` (lines 1186–1195).  `session.close` fires the
`session_closed` event, whose handler (lines 223–230) — unless the node is
closing — emits the `session closed` status and clears the session,
subscription and registry fields; the protocol items die with the
session. -/
def closeSession (s : ClientState) : ClientState × List Out :=
  if s.session then
    if s.isClosing then
      ({ s with session := false, liveItems := [] }, [])
    else
      ({ s with session := false, subscription := none, monitoredItems := []
                liveItems := [] },
       [Out.statusMsg "session closed"])
  else (s, [])

/-- `disconnectClient` (lines 1200–1210). -/
def disconnectClient (s : ClientState) : ClientState × List Out :=
  if s.client then ({ s with client := false }, []) else (s, [])

/-- The `node.on("close")` handler (lines 137–147): set `isClosing`, then
terminate the subscription, close the session and disconnect the client,
then `done()`. -/
def closeHandler (s : ClientState) : ClientState × List Out :=
  let t1 := terminateSubscription { s with isClosing := true }
  let t2 := closeSession t1.1
  let t3 := disconnectClient t2.1
  (t3.1, t1.2 ++ t2.2 ++ t3.2)

/-- The non-control handlers that only perform a protocol operation against
the session and emit results (read, write, browse, info, build, register,
unregister, acknowledge, history, readfile, writefile, method): they assert
the session, never touch the queue, registry or live items.  Their
per-action payloads and statuses are abstracted to a single data message
labelled by the action (the read handler is modelled in full detail
separately as `actionRead`). -/
def genericSessionAction (s : ClientState) (c : Cmd) : ClientState × List Out :=
  if assertSessionOk s then
    (s, [Out.dataMsg c.action, Out.cbOk c.id])
  else
    (s, [Out.statusMsg "no session", Out.errMsg "No active OPC UA session", Out.cbOk c.id])

/-- Dispatch of a non-control action to its handler.  The connection-control
branches are unreachable through this function on any reachable state (the
queue never holds control commands, see `cmdQueue_no_control`); their real
handlers are dispatched at top level by `routeAction`. -/
def dispatchHandler (s : ClientState) (c : Cmd) : ClientState × List Out :=
  match c.action with
  | "subscribe" => actionSubscribe s c
  | "monitor" => actionMonitor s c
  | "unsubscribe" => actionUnsubscribe s c
  | "deletesubscription" => actionDeleteSubscription s c
  | "events" => actionEvents s c
  | "connect" => (s, [])
  | "disconnect" => (s, [])
  | "reconnect" => (s, [])
  | _ => genericSessionAction s c

/-- `routeAction` (lines 286–317) restricted to non-control actions: a known
action is dispatched to its handler, an unknown one reported via
`node.error` and completed. -/
def routeDataAction (s : ClientState) (c : Cmd) : ClientState × List Out :=
  if c.action ∈ knownActions then
    ((dispatchHandler s c).1, Out.exec c :: (dispatchHandler s c).2)
  else
    (s, [Out.errMsg ("Unknown action: " ++ c.action), Out.cbOk c.id])

/-- The iteration of `replayCommandQueue` (lines 273–276) over the spliced
queue: each queued command is routed in order.  Queued commands are never
connection-control (`cmdQueue_no_control`), so routing them through
`routeDataAction` agrees with the source's `routeAction` on every reachable
state. -/
def replayList (s : ClientState) (queued : List Cmd) : ClientState × List Out :=
  match queued with
  | [] => (s, [])
  | c :: rest =>
    ((replayList (routeDataAction s c).1 rest).1,
     (routeDataAction s c).2 ++ (replayList (routeDataAction s c).1 rest).2)

/-- `replayCommandQueue` (lines 271–277): `splice(0)` empties the queue,
then every removed command is routed in arrival order. -/
def replayCommandQueue (s : ClientState) : ClientState × List Out :=
  replayList { s with cmdQueue := [] } s.cmdQueue

/-- `connectAndCreateSession` (lines 208–234), success path: connect,
create the session, register its close handler, replay the queue. -/
def connectAndCreateSession (s : ClientState) : ClientState × List Out :=
  let t := replayCommandQueue
    { s with session := true, isReconnecting := false, hasConnected := true }
  (t.1, [Out.statusMsg "connecting", Out.statusMsg "connected",
         Out.statusMsg "session active"] ++ t.2)

/-- `actionConnect` (lines 1021–1042), success path: disconnect the old
client, null the session, re-run `initializeClient` (which creates a client
and, with `connectOnStart`, connects and replays). -/
def actionConnect (s : ClientState) (c : Cmd) : ClientState × List Out :=
  let t1 := disconnectClient s
  let s2 := { t1.1 with session := false, client := true }
  let t3 :=
    if s2.connectOnStart then connectAndCreateSession s2
    else (s2, [Out.statusMsg "waiting"])
  (t3.1, t1.2 ++ [Out.statusMsg "client created"] ++ t3.2 ++
       [Out.dataMsg "Connected", Out.cbOk c.id])

/-- `actionDisconnect` (lines 1047–1060): terminate the subscription, close
the session, disconnect the client, report. -/
def actionDisconnect (s : ClientState) (c : Cmd) : ClientState × List Out :=
  let t1 := terminateSubscription s
  let t2 := closeSession t1.1
  let t3 := disconnectClient t2.1
  (t3.1, t1.2 ++ t2.2 ++ t3.2 ++
       [Out.statusMsg "disconnected", Out.dataMsg "Disconnected", Out.cbOk c.id])

/-- `actionReconnect` (lines 1065–1083), success path. -/
def actionReconnect (s : ClientState) (c : Cmd) : ClientState × List Out :=
  let t1 := terminateSubscription s
  let t2 := closeSession t1.1
  let t3 := disconnectClient t2.1
  let s4 := { t3.1 with hasConnected := false, client := true }
  let t5 :=
    if s4.connectOnStart then connectAndCreateSession s4
    else (s4, [Out.statusMsg "waiting"])
  (t5.1, t1.2 ++ t2.2 ++ t3.2 ++ [Out.statusMsg "client created"] ++ t5.2 ++
       [Out.dataMsg "Reconnected", Out.cbOk c.id])

/-- `routeAction` (lines 286–317), full dispatch. -/
def routeAction (s : ClientState) (c : Cmd) : ClientState × List Out :=
  match c.action with
  | "connect" => ((actionConnect s c).1, Out.exec c :: (actionConnect s c).2)
  | "disconnect" =>
    ((actionDisconnect s c).1, Out.exec c :: (actionDisconnect s c).2)
  | "reconnect" =>
    ((actionReconnect s c).1, Out.exec c :: (actionReconnect s c).2)
  | _ => routeDataAction s c

/-- `shouldQueueMessage` (lines 1219–1234).  The lazy-connect branch also
queues (its side effect, starting an asynchronous connect, is modelled by a
later `reestablished` event). -/
def shouldQueueMessage (s : ClientState) (action : String) : Bool :=
  if isControlAction action then false
  else if !s.session && s.client && !s.connectOnStart && !s.hasConnected then true
  else if !s.session then true
  else if s.isReconnecting then true
  else false

/-- The `node.on("input")` handler (lines 119–131): queue the message when
the session is not usable, otherwise route it. -/
def inputStep (s : ClientState) (c : Cmd) : ClientState × List Out :=
  if shouldQueueMessage s c.action then
    ({ s with cmdQueue := s.cmdQueue ++ [c] }, [])
  else routeAction s c

/-- External stimuli of the node. -/
inductive Event where
  /-- an inbound message (`node.on("input")`) -/
  | input : Cmd → Event
  /-- the session's `session_closed` event (transport loss tore the session
  down) -/
  | sessionClosed : Event
  /-- the client's `connection_reestablished` event (automatic reconnection
  succeeded); also models the completion of a lazy connect -/
  | reestablished : Event
  /-- the runtime closing the node (`node.on("close")`) -/
  | closeNode : Event
  /-- the protocol engine delivering a change notification for an item -/
  | notifyChange : String → Event
  deriving DecidableEq

/-- An event that submits a monitored-item-creating request (a caller
re-issuing subscribe/monitor/events). -/
def isSubscribeLike (e : Event) : Bool :=
  match e with
  | .input c => isItemCreating c.action
  | _ => false

/-- The state reached after a transport loss cleared the session: no live
protocol item, empty registry, and no item-creating command pending in the
queue. -/
def ClearedRegistry (s : ClientState) : Prop :=
  s.liveItems = [] ∧ s.monitoredItems = [] ∧
  ∀ c ∈ s.cmdQueue, isItemCreating c.action = false

/-- One step of the node's event loop. -/
def step (s : ClientState) (e : Event) : ClientState × List Out :=
  match e with
  | .input c => inputStep s c
  | .sessionClosed =>
    -- lines 223–230: ignored while closing, else clear session state
    if s.isClosing then (s, [])
    else
      ({ s with session := false, isReconnecting := false, subscription := none
                monitoredItems := [], liveItems := [] },
       [Out.statusMsg "session closed"])
  | .reestablished =>
    -- lines 240–248: ignored while closing; re-create the session if lost
    if s.isClosing then (s, [])
    else if !s.session then
      ((connectAndCreateSession s).1,
       Out.statusMsg "re-established" :: (connectAndCreateSession s).2)
    else (s, [Out.statusMsg "re-established"])
  | .closeNode => closeHandler s
  | .notifyChange key =>
    -- the "changed" handler of a live monitored item (lines 467–481)
    if key ∈ s.liveItems then
      (s, [Out.statusMsg "value changed", Out.notifMsg key])
    else (s, [])

/-- Run a sequence of events, concatenating outputs. -/
def runTrace (s : ClientState) (evs : List Event) : ClientState × List Out :=
  match evs with
  | [] => (s, [])
  | e :: rest =>
    ((runTrace (step s e).1 rest).1,
     (step s e).2 ++ (runTrace (step s e).1 rest).2)

/-- Submit a sequence of inbound messages. -/
def submitAll (s : ClientState) (cmds : List Cmd) : ClientState × List Out :=
  runTrace s (cmds.map Event.input)

/-- The ids of the commands dispatched to action handlers, in dispatch
order. -/
def execOrder (outs : List Out) : List ℕ :=
  outs.filterMap (fun o => match o with | .exec c => some c.id | _ => none)

/-- Is this output a dispatch marker? -/
def Out.isExec (o : Out) : Bool :=
  match o with | .exec _ => true | _ => false

/-- Is this output a change notification? -/
def Out.isNotif (o : Out) : Bool :=
  match o with | .notifMsg _ => true | _ => false

/-- Is this output a warning? -/
def Out.isWarn (o : Out) : Bool :=
  match o with | .warnMsg _ => true | _ => false

/-- Is this output a `node.error` report? -/
def Out.isErrOut (o : Out) : Bool :=
  match o with | .errMsg _ => true | _ => false

/-- Is this output a failing completion callback? -/
def Out.isCbFail (o : Out) : Bool :=
  match o with | .cbFail _ _ => true | _ => false

/-!
## The read handler (`actionRead`, opcua-client.js lines 329–386)

Modelled in full: the body executed against an active session (the
`assertSession` guard is shared with the other handlers and modelled in the
state machine above).  `session.read` returns exactly one DataValue per
requested node — the per-item loop and the batch construction pair the
items with the results positionally.
-/

/-- One element of `msg.items` as consumed by the read handler. -/
structure ReadItem where
  nodeId : String
  datatype : String
  browseName : String
  deriving DecidableEq

/-- A DataValue returned by `session.read` for one item, restricted to the
fields the handler forwards. -/
structure DataValueIn where
  value : Option JVal
  statusCode : ℕ
  deriving DecidableEq

/-- One entry of the batch message's `items` array (lines 368–376). -/
structure BatchEntry where
  nodeId : String
  datatype : String
  browseName : String
  value : Option JVal
  statusCode : ℕ
  deriving DecidableEq

/-- The messages `actionRead` emits, tagged by output channel. -/
inductive ReadOut where
  /-- a per-item result message on output 1 (data) -/
  | itemResult : String → String → String → Option JVal → ℕ → ReadOut
  /-- a status notification on output 2 (`setStatus`) -/
  | statusNote : String → ReadOut
  /-- `node.warn` -/
  | warnNote : String → ReadOut
  /-- the single batch result message on output 3 -/
  | batchResult : List BatchEntry → ReadOut
  deriving DecidableEq

/-- `actionRead` body: empty item list warns and returns; otherwise one
per-item message per DataValue on output 1, then one batch message carrying
all items on output 3. -/
def actionRead (items : List ReadItem) (dataValues : List DataValueIn) :
    List ReadOut :=
  if items.isEmpty then
    [ReadOut.warnNote "No items to read"]
  else
    ReadOut.statusNote "reading" ::
    ((items.zip dataValues).map (fun p =>
        ReadOut.itemResult p.1.nodeId p.1.datatype p.1.browseName
          p.2.value p.2.statusCode)) ++
    [ReadOut.batchResult ((items.zip dataValues).map (fun p =>
        ⟨p.1.nodeId, p.1.datatype, p.1.browseName, p.2.value, p.2.statusCode⟩)),
     ReadOut.statusNote "read done"]

/-- Is this read output a per-item result on the data channel? -/
def ReadOut.isItemResult (o : ReadOut) : Bool :=
  match o with | .itemResult _ _ _ _ _ => true | _ => false

/-- Is this read output the batch result on the batch channel? -/
def ReadOut.isBatchResult (o : ReadOut) : Bool :=
  match o with | .batchResult _ => true | _ => false

/-!
## Concrete fixtures used by witnesses and counterexamples
-/

/-- A node with three data commands queued while disconnected. -/
def queuedState3 : ClientState :=
  ⟨false, false, true, none, [], [],
   [⟨0, "read", ["ns=1;s=A"], 1000, "", true⟩,
    ⟨1, "read", ["ns=1;s=B"], 1000, "", true⟩,
    ⟨2, "write", ["ns=1;s=C"], 1000, "", true⟩],
   false, true, true⟩

/-- An explicit disconnect command. -/
def disconnectCmd : Cmd := ⟨99, "disconnect", [], 1000, "", true⟩

/-- A session-ready node with an empty monitored-item registry. -/
def unknownKeyState : ClientState :=
  ⟨true, false, true, none, [], [], [], false, true, true⟩

/-- An unsubscribe request naming a key no monitored item carries. -/
def unsubUnknownCmd : Cmd := ⟨0, "unsubscribe", ["ns=1;s=Missing"], 1000, "", true⟩

/-- A session-ready node with one live, registered monitored item `Y`. -/
def lostItemState : ClientState :=
  ⟨true, false, true, some ⟨buildSubscriptionParameters 1000⟩,
   [("Y", true)], ["Y"], [], false, true, true⟩

/-- Three data commands submitted while disconnected. -/
def fifoCmds : List Cmd :=
  [⟨0, "read", ["ns=1;s=A"], 1000, "", true⟩,
   ⟨1, "write", ["ns=1;s=B"], 1000, "", true⟩,
   ⟨2, "subscribe", ["ns=1;s=C"], 1000, "", true⟩]

/-- A session-ready node with one registered monitored item `Y`. -/
def oneItemState : ClientState :=
  ⟨true, false, true, some ⟨buildSubscriptionParameters 1000⟩,
   [("Y", true)], ["Y"], [], false, true, true⟩

/-- A subscribe command for the already-registered key `Y`. -/
def subAgainCmd : Cmd := ⟨7, "subscribe", ["Y"], 1000, "", true⟩

/-!
## Theorems
-/

/-- `clampInt` lands in `[lo, hi]` whenever the interval contains 0 (the
NaN branch returns 0). -/
theorem clampInt_mem (v : JsNum) (lo hi : ℤ) (h1 : lo ≤ 0) (h2 : 0 ≤ hi) :
    lo ≤ clampInt v lo hi ∧ clampInt v lo hi ≤ hi := by
  unfold clampInt
  rcases jsRound v with _ | q
  · exact ⟨h1, h2⟩
  · exact ⟨le_max_left lo _, max_le (h1.trans h2) (min_le_left hi _)⟩

/-- Branch equations of `coerceScalarValue` for the bounded integer types. -/
theorem coerceScalarValue_bounded (name : String) (lo hi : ℤ) (v : JVal)
    (hmem : (name, lo, hi) ∈ boundedIntTypes) :
    coerceScalarValue name v = .cInt (clampInt (jsToNumber v) lo hi) := by
  simp only [boundedIntTypes, List.mem_cons, List.not_mem_nil, or_false] at hmem
  rcases hmem with h | h | h | h | h | h | h | h <;>
    (injection h with h1 h23; injection h23 with h2 h3; subst h1; subst h2; subst h3; rfl)

/-- Claim C4: every write of a value declared as a bounded integer scalar
type clamps the value into the type's range before transmission; in
particular a write of 999999 declared `Int16` transmits 32767, and the
per-type ranges are SByte/Int8 `[-128, 127]`, Byte/UInt8 `[0, 255]`, Int16
`[-32768, 32767]`, UInt16 `[0, 65535]`, Int32
`[-2147483648, 2147483647]`, UInt32 `[0, 4294967295]`. -/
theorem write_clamps_bounded_ints :
    (∀ (name : String) (lo hi : ℤ) (v : JVal), (name, lo, hi) ∈ boundedIntTypes →
      coerceScalarValue name v = .cInt (clampInt (jsToNumber v) lo hi) ∧
      lo ≤ clampInt (jsToNumber v) lo hi ∧ clampInt (jsToNumber v) lo hi ≤ hi) ∧
    (writeTransmittedValues [⟨"X", "Int16", .jnum (.num 999999), none⟩] none).map
        (fun dv => dv.value.value) = [.cInt 32767] := by
  constructor
  · intro name lo hi v hmem
    refine ⟨coerceScalarValue_bounded name lo hi v hmem, ?_⟩
    have hrange : lo ≤ 0 ∧ 0 ≤ hi := by
      simp only [boundedIntTypes, List.mem_cons, List.not_mem_nil, or_false] at hmem
      rcases hmem with h | h | h | h | h | h | h | h <;>
        (injection h with h1 h23; injection h23 with h2 h3; subst h2; subst h3; omega)
    exact clampInt_mem (jsToNumber v) lo hi hrange.1 hrange.2
  · have hfl : (⌊(999999 : ℚ) + 1 / 2⌋ : ℤ) = 999999 := by norm_num
    have h1 : clampInt (JsNum.num 999999) (-32768) 32767 = 32767 := by
      simp only [clampInt, jsRound, hfl, Int.floor_intCast]
      decide
    calc (writeTransmittedValues [⟨"X", "Int16", .jnum (.num 999999), none⟩] none).map
            (fun dv => dv.value.value)
        = [.cInt (clampInt (JsNum.num 999999) (-32768) 32767)] := rfl
      _ = [.cInt 32767] := by rw [h1]

/-- Witness for C4 at a concrete bounded type and value. -/
theorem write_clamps_bounded_ints_witness :
    coerceScalarValue "SByte" (JVal.jnum (.num 999999))
      = .cInt (clampInt (jsToNumber (JVal.jnum (.num 999999))) (-128) 127) :=
  (write_clamps_bounded_ints.1 "SByte" (-128) 127 (JVal.jnum (.num 999999))
    (by decide)).1

/-- Claim C9: for every bounded integer datatype, coercing a value whose
numeric conversion is NaN (for example a non-numeric string) yields 0 —
the write silently transmits 0 instead of failing. -/
theorem nan_coerces_to_zero (name : String) (lo hi : ℤ) (v : JVal)
    (hmem : (name, lo, hi) ∈ boundedIntTypes)
    (hnan : jsToNumber v = .nan) :
    coerceScalarValue name v = .cInt 0 := by
  rw [coerceScalarValue_bounded name lo hi v hmem, hnan]
  rfl

/-- Witness for C9: a garbage string declared `Int16` coerces to 0. -/
theorem nan_coerces_to_zero_witness :
    jsToNumber (JVal.jstr "garbage") = .nan ∧
    coerceScalarValue "Int16" (JVal.jstr "garbage") = .cInt 0 :=
  ⟨rfl, nan_coerces_to_zero "Int16" (-32768) 32767 (JVal.jstr "garbage")
    (by decide) rfl⟩

/-- Claim C10: `resolveSecurityMode` and `resolveSecurityPolicy` are total
and never fail: every input outside their lookup tables — including a
missing (null/undefined) or misspelled name — resolves to
`MessageSecurityMode.None` / `SecurityPolicy.None`, silently downgrading
the connection to no security. -/
theorem unknown_security_config_defaults_to_none :
    (∀ mode : String, securityModeMap mode = none →
        resolveSecurityMode (some mode) = .None) ∧
    resolveSecurityMode none = .None ∧
    (∀ policy : String, securityPolicyMap policy = none →
        resolveSecurityPolicy (some policy) = .None) ∧
    resolveSecurityPolicy none = .None := by
  refine ⟨?_, rfl, ?_, rfl⟩
  · intro mode h
    simp [resolveSecurityMode, h]
  · intro policy h
    simp [resolveSecurityPolicy, h]

/-- Witness for C10 at misspelled names. -/
theorem unknown_security_config_defaults_to_none_witness :
    resolveSecurityMode (some "SignAndEncrypt ") = .None ∧
    resolveSecurityPolicy (some "basic256sha256") = .None :=
  ⟨unknown_security_config_defaults_to_none.1 "SignAndEncrypt " rfl,
   unknown_security_config_defaults_to_none.2.2.1 "basic256sha256" rfl⟩

/-- Claim C7: `ensureSubscription` is idempotent: a second call with the
same parameters is a no-op, an existing subscription object is returned
unchanged, and after any call exactly one Subscription exists. -/
theorem ensureSubscription_idempotent (subscription : Option Subscription)
    (interval : ℚ) (forEvents : Bool) :
    ensureSubscription (ensureSubscription subscription interval forEvents)
        interval forEvents
      = ensureSubscription subscription interval forEvents ∧
    (ensureSubscription subscription interval forEvents).isSome = true ∧
    ∀ sub : Subscription,
      ensureSubscription (some sub) interval forEvents = some sub := by
  rcases subscription with _ | sub <;> simp [ensureSubscription]

/-- Claim C6: a read with a nonempty item list (against an active session)
emits one per-item result message on the data output for every item and,
additionally, exactly one batch message on the batch output carrying all
the items of the read — two independent channels, not mutually
exclusive. -/
theorem read_emits_per_item_and_batch (items : List ReadItem)
    (dataValues : List DataValueIn)
    (hne : items ≠ [])
    (hlen : dataValues.length = items.length) :
    ((actionRead items dataValues).filter ReadOut.isItemResult).length
        = items.length ∧
    ((actionRead items dataValues).filter ReadOut.isBatchResult).length = 1 ∧
    ReadOut.batchResult ((items.zip dataValues).map (fun p =>
        ⟨p.1.nodeId, p.1.datatype, p.1.browseName, p.2.value, p.2.statusCode⟩))
      ∈ actionRead items dataValues ∧
    (items.zip dataValues).length = items.length := by
  have hempty : items.isEmpty = false := by
    simpa [List.isEmpty_iff] using hne
  have hz : (items.zip dataValues).length = items.length := by
    rw [List.length_zip, hlen, Nat.min_self]
  refine ⟨?_, ?_, ?_, hz⟩
  · simp only [actionRead, hempty, Bool.false_eq_true, if_false,
      List.filter_cons, List.filter_append]
    simp [ReadOut.isItemResult, ReadOut.isBatchResult, List.filter_map,
      Function.comp_def, hz]
  · simp only [actionRead, hempty, Bool.false_eq_true, if_false,
      List.filter_cons, List.filter_append]
    simp [ReadOut.isItemResult, ReadOut.isBatchResult, List.filter_map,
      Function.comp_def]
  · simp [actionRead, hempty]

/-- Witness for C6: a concrete two-item read. -/
theorem read_emits_per_item_and_batch_witness :
    ((actionRead [⟨"ns=1;s=X", "Double", "x"⟩, ⟨"ns=1;s=Y", "Int16", "y"⟩]
        [⟨some (.jnum (.num 1)), 0⟩, ⟨some (.jnum (.num 2)), 0⟩]).filter
        ReadOut.isItemResult).length = 2 ∧
    ((actionRead [⟨"ns=1;s=X", "Double", "x"⟩, ⟨"ns=1;s=Y", "Int16", "y"⟩]
        [⟨some (.jnum (.num 1)), 0⟩, ⟨some (.jnum (.num 2)), 0⟩]).filter
        ReadOut.isBatchResult).length = 1 :=
  ⟨(read_emits_per_item_and_batch _ _ (by decide) (by decide)).1,
   (read_emits_per_item_and_batch _ _ (by decide) (by decide)).2.1⟩

/-- Claim C1 is false on the code: with three commands queued, neither the
node's close handler nor the disconnect action invokes any queued command's
result callback with a `ConnectionClosed` failure (they invoke no queued
callback at all). -/
theorem close_fails_queued_commands_counterexample :
    ¬ (∀ c ∈ queuedState3.cmdQueue,
        Out.cbFail c.id "ConnectionClosed" ∈ (closeHandler queuedState3).2) ∧
    ¬ (∀ c ∈ queuedState3.cmdQueue,
        Out.cbFail c.id "ConnectionClosed" ∈
          (actionDisconnect queuedState3 disconnectCmd).2) := by
  decide

/-- Claim C1 amended: if the Connection is closed (via the node's close
handler or the disconnect action) while commands are queued, the queued
commands are silently dropped — the pending queue is left untouched and no
queued command's result callback is invoked, neither with a
`ConnectionClosed` failure nor otherwise (the only completion callback the
disconnect action invokes is its own). -/
theorem close_drops_queued_commands (s : ClientState) (c : Cmd) :
    (closeHandler s).1.cmdQueue = s.cmdQueue ∧
    (∀ o ∈ (closeHandler s).2, o.isCbFail = false ∧ ∀ i, o ≠ Out.cbOk i) ∧
    (actionDisconnect s c).1.cmdQueue = s.cmdQueue ∧
    (∀ o ∈ (actionDisconnect s c).2, o.isCbFail = false ∧
      ∀ i, o = Out.cbOk i → i = c.id) := by
  rcases s with ⟨ses, rec, cl, sub, mon, live, q, clos, cos, hc⟩
  rcases sub with _ | sub <;> rcases ses <;> rcases cl <;> rcases clos <;>
    simp [closeHandler, actionDisconnect, terminateSubscription, closeSession,
      disconnectClient, Out.isCbFail]

/-- The unsubscribe loop is the identity and emits nothing when every
requested key is unknown to the registry. -/
theorem unsubLoop_unknown (s : ClientState) (keys : List String)
    (h : ∀ k ∈ keys, lookupItem s.monitoredItems k = none) :
    unsubLoop s keys = (s, []) := by
  induction keys with
  | nil => rfl
  | cons k rest ih =>
    have hk := h k (List.mem_cons_self k rest)
    simp only [unsubLoop, hk]
    rw [ih (fun k' hk' => h k' (List.mem_cons_of_mem _ hk'))]
    rfl

/-- Claim C5 is false on the code: an unsubscribe naming an unknown key is
a no-op, but no warning is emitted for the unknown key (the request
completes with its normal payload and status outputs only). -/
theorem unsubscribe_unknown_key_no_warning_counterexample :
    (∀ o ∈ (actionUnsubscribe unknownKeyState unsubUnknownCmd).2,
      o.isWarn = false) ∧
    (actionUnsubscribe unknownKeyState unsubUnknownCmd).1 = unknownKeyState := by
  decide

/-- Claim C5 amended: an unsubscribe whose keys are all unknown to the
registry is a silent no-op: the state is unchanged and the outputs are
exactly the normal completion — the payload message reporting the requested
item count, the `subscribed` status and the success callback — with no
warning and no error. -/
theorem unsubscribe_unknown_keys_silent_noop (s : ClientState) (c : Cmd)
    (h : ∀ k ∈ c.itemKeys, lookupItem s.monitoredItems k = none) :
    (actionUnsubscribe s c).1 = s ∧
    (actionUnsubscribe s c).2 =
      [Out.dataMsg ("Unsubscribed from " ++ toString c.itemKeys.length ++ " item(s)"),
       Out.statusMsg "subscribed", Out.cbOk c.id] := by
  unfold actionUnsubscribe
  rw [unsubLoop_unknown s c.itemKeys h]
  simp

/-- `execOrder` distributes over concatenation. -/
theorem execOrder_append (o1 o2 : List Out) :
    execOrder (o1 ++ o2) = execOrder o1 ++ execOrder o2 := by
  simp [execOrder]

/-- Outputs containing no dispatch marker contribute no executions. -/
theorem execOrder_eq_nil (outs : List Out) (h : ∀ o ∈ outs, o.isExec = false) :
    execOrder outs = [] := by
  induction outs with
  | nil => rfl
  | cons o rest ih =>
    have ho := h o (List.mem_cons_self _ _)
    have hr := ih (fun o' h' => h o' (List.mem_cons_of_mem _ h'))
    cases o <;> simp_all [execOrder, Out.isExec, List.filterMap_cons]

/-- The unsubscribe loop emits no dispatch marker. -/
theorem unsubLoop_no_exec (keys : List String) :
    ∀ (s : ClientState), ∀ o ∈ (unsubLoop s keys).2, o.isExec = false := by
  induction keys with
  | nil => intro s o ho; simp [unsubLoop] at ho
  | cons k rest ih =>
    intro s o ho
    simp only [unsubLoop] at ho
    rcases hl : lookupItem s.monitoredItems k with _ | hb
    · rw [hl] at ho
      simp only [List.nil_append] at ho
      exact ih s o ho
    · rw [hl] at ho
      rcases hb
      · simp only [Bool.false_eq_true, if_false, List.cons_append,
          List.nil_append, List.mem_cons] at ho
        rcases ho with ho | ho
        · simp [ho, Out.isExec]
        · exact ih s o ho
      · simp only [if_true, List.nil_append] at ho
        exact ih _ o ho

/-- No action handler emits a dispatch marker. -/
theorem dispatchHandler_no_exec (s : ClientState) (c : Cmd) :
    ∀ o ∈ (dispatchHandler s c).2, o.isExec = false := by
  unfold dispatchHandler
  split
  · -- subscribe
    unfold actionSubscribe
    split
    · simp [Out.isExec]
    · split
      · simp [Out.isExec]
      · split <;> simp [Out.isExec]
  · -- monitor
    unfold actionMonitor
    split
    · simp [Out.isExec]
    · split <;> simp [Out.isExec]
  · -- unsubscribe
    intro o ho
    unfold actionUnsubscribe at ho
    rcases List.mem_append.mp ho with h1 | h2
    · exact unsubLoop_no_exec c.itemKeys s o h1
    · simp only [List.mem_cons, List.not_mem_nil, or_false] at h2
      rcases h2 with h2 | h2 | h2 <;> simp [h2, Out.isExec]
  · -- deletesubscription
    intro o ho
    unfold actionDeleteSubscription terminateSubscription at ho
    rcases List.mem_append.mp ho with h1 | h2
    · rcases hsub : s.subscription with _ | sub <;> rw [hsub] at h1 <;>
        simp_all [Out.isExec]
    · simp only [List.mem_cons, List.not_mem_nil, or_false] at h2
      rcases h2 with h2 | h2 | h2 <;> simp [h2, Out.isExec]
  · -- events
    unfold actionEvents
    split <;> simp [Out.isExec]
  · simp
  · simp
  · simp
  · -- generic session actions
    unfold genericSessionAction
    split <;> simp [Out.isExec]

/-- Routing a known action executes exactly that command. -/
theorem routeDataAction_exec (s : ClientState) (c : Cmd)
    (h : c.action ∈ knownActions) :
    execOrder (routeDataAction s c).2 = [c.id] := by
  simp only [routeDataAction, if_pos h]
  simp only [execOrder, List.filterMap_cons]
  have := execOrder_eq_nil (dispatchHandler s c).2 (dispatchHandler_no_exec s c)
  simp only [execOrder] at this
  simp [this]

/-- Replay executes the queued commands exactly in queue order. -/
theorem replayList_execOrder (queued : List Cmd) :
    ∀ s : ClientState, (∀ c ∈ queued, c.action ∈ knownActions) →
      execOrder (replayList s queued).2 = queued.map Cmd.id := by
  induction queued with
  | nil => intro s _; rfl
  | cons c rest ih =>
    intro s h
    simp only [replayList]
    rw [execOrder_append, routeDataAction_exec s c (h c (List.mem_cons_self _ _)),
      ih _ (fun c' h' => h c' (List.mem_cons_of_mem _ h'))]
    rfl

/-- A non-control message is queued whenever the session is absent. -/
theorem shouldQueueMessage_true (s : ClientState) (action : String)
    (hctl : isControlAction action = false) (hs : s.session = false) :
    shouldQueueMessage s action = true := by
  simp [shouldQueueMessage, hctl, hs]

/-- Submitting non-control messages while the session is absent appends
them to the pending queue in arrival order and executes nothing. -/
theorem submitAll_queues (cmds : List Cmd) :
    ∀ s : ClientState, s.session = false →
      (∀ c ∈ cmds, isControlAction c.action = false) →
      submitAll s cmds = ({ s with cmdQueue := s.cmdQueue ++ cmds }, []) := by
  induction cmds with
  | nil => intro s _ _; simp [submitAll, runTrace]
  | cons c rest ih =>
    intro s hs hc
    have hq : shouldQueueMessage s c.action = true :=
      shouldQueueMessage_true s c.action (hc c (List.mem_cons_self _ _)) hs
    have ih' := ih { s with cmdQueue := s.cmdQueue ++ [c] } hs
      (fun c' h' => hc c' (List.mem_cons_of_mem _ h'))
    simp only [submitAll, List.map_cons, runTrace, step, inputStep, hq,
      if_true] at ih' ⊢
    rw [ih']
    simp

/-- Claim C2: messages submitted while the Connection is not session-ready
are each appended to the pending queue (nothing executes at submission),
and when the session becomes ready the replay executes them exactly in
submission order — FIFO, no reordering, no drops. -/
theorem queued_commands_replay_fifo (s : ClientState) (cmds : List Cmd)
    (hs : s.session = false) (hclos : s.isClosing = false)
    (hq0 : s.cmdQueue = [])
    (hc : ∀ c ∈ cmds, c.action ∈ knownActions ∧ isControlAction c.action = false) :
    (submitAll s cmds).2 = [] ∧
    execOrder (step (submitAll s cmds).1 Event.reestablished).2
      = cmds.map Cmd.id := by
  have hsub := submitAll_queues cmds s hs (fun c h => (hc c h).2)
  rw [hsub]
  refine ⟨rfl, ?_⟩
  rcases s with ⟨ses, rec, cl, sub, mon, live, q, clos, cos, hcon⟩
  simp only at hs hclos hq0
  subst hs; subst hclos; subst hq0
  simp only [step, connectAndCreateSession, replayCommandQueue]
  simp only [execOrder, List.filterMap_cons, List.filterMap_append]
  have := replayList_execOrder cmds
    { session := true, isReconnecting := false, client := cl
      subscription := sub, monitoredItems := mon, liveItems := live
      cmdQueue := [], isClosing := false, connectOnStart := cos
      hasConnected := true } (fun c h => (hc c h).1)
  simp only [execOrder] at this
  simpa using this

/-- Witness for C2: three concrete commands submitted while disconnected
replay in submission order. -/
theorem queued_commands_replay_fifo_witness :
    execOrder (step (submitAll initialState fifoCmds).1 Event.reestablished).2
      = [0, 1, 2] :=
  (queued_commands_replay_fifo initialState fifoCmds rfl rfl rfl (by decide)).2

/-- `Map.set` preserves key uniqueness: an existing key is overwritten in
place, a fresh key is appended. -/
theorem mapSet_keys_nodup (m : List (String × Handle)) (k : String) (v : Handle)
    (h : (m.map Prod.fst).Nodup) : ((mapSet m k v).map Prod.fst).Nodup := by
  unfold mapSet
  split
  · have heq : (m.map (fun p => if p.1 == k then (k, v) else p)).map Prod.fst
        = m.map Prod.fst := by
      rw [List.map_map]
      apply List.map_congr_left
      intro p _
      simp only [Function.comp_apply]
      by_cases hpk : p.1 = k
      · simp [hpk]
      · simp [hpk]
    rw [heq]; exact h
  · rename_i hany
    rw [List.map_append]
    rw [List.nodup_append]
    refine ⟨h, List.nodup_singleton _, ?_⟩
    intro a ha hb
    simp only [List.map_cons, List.map_nil, List.mem_singleton] at hb
    subst hb
    rcases List.mem_map.mp ha with ⟨p, hp, hpk⟩
    exact hany (List.any_eq_true.mpr ⟨p, hp, by simp [hpk]⟩)

/-- `Map.delete` preserves key uniqueness. -/
theorem mapDelete_keys_nodup (m : List (String × Handle)) (k : String)
    (h : (m.map Prod.fst).Nodup) : ((mapDelete m k).map Prod.fst).Nodup := by
  have hsub : List.Sublist (mapDelete m k) m := List.filter_sublist m
  exact List.Nodup.sublist (hsub.map Prod.fst) h

/-- The monitor registration loop preserves key uniqueness. -/
theorem monLoop_keys_nodup (keys : List String) :
    ∀ (m : List (String × Handle)) (handleOk : Bool),
      (m.map Prod.fst).Nodup → ((monLoop m keys handleOk).map Prod.fst).Nodup := by
  induction keys with
  | nil => intro m _ h; exact h
  | cons k rest ih =>
    intro m handleOk h
    simpa [monLoop] using ih _ handleOk (mapSet_keys_nodup m k handleOk h)

/-- The unsubscribe loop preserves key uniqueness. -/
theorem unsubLoop_keys_nodup (keys : List String) :
    ∀ s : ClientState, (s.monitoredItems.map Prod.fst).Nodup →
      ((unsubLoop s keys).1.monitoredItems.map Prod.fst).Nodup := by
  induction keys with
  | nil => intro s h; exact h
  | cons k rest ih =>
    intro s h
    simp only [unsubLoop]
    rcases hl : lookupItem s.monitoredItems k with _ | hb
    · exact ih s h
    · rcases hb
      · exact ih s h
      · exact ih _ (mapDelete_keys_nodup s.monitoredItems k h)

/-- Every non-control handler preserves key uniqueness of the registry. -/
theorem dispatchHandler_keys_nodup (s : ClientState) (c : Cmd)
    (h : (s.monitoredItems.map Prod.fst).Nodup) :
    ((dispatchHandler s c).1.monitoredItems.map Prod.fst).Nodup := by
  unfold dispatchHandler
  split
  · unfold actionSubscribe
    split
    · exact h
    · split
      · exact h
      · split
        · exact mapSet_keys_nodup _ _ _ h
        all_goals exact h
  · unfold actionMonitor
    split
    · exact h
    · split
      · exact h
      · exact monLoop_keys_nodup c.itemKeys _ _ h
  · unfold actionUnsubscribe
    exact unsubLoop_keys_nodup c.itemKeys s h
  · unfold actionDeleteSubscription terminateSubscription
    split
    · simp
    · exact h
  · unfold actionEvents
    split
    · exact h
    · exact mapSet_keys_nodup _ _ _ h
  · exact h
  · exact h
  · exact h
  · unfold genericSessionAction
    split <;> exact h

/-- Replay preserves key uniqueness of the registry. -/
theorem replayList_keys_nodup (queued : List Cmd) :
    ∀ s : ClientState, (s.monitoredItems.map Prod.fst).Nodup →
      ((replayList s queued).1.monitoredItems.map Prod.fst).Nodup := by
  induction queued with
  | nil => intro s h; exact h
  | cons c rest ih =>
    intro s h
    simp only [replayList]
    apply ih
    unfold routeDataAction
    split
    · exact dispatchHandler_keys_nodup s c h
    · exact h

/-- `terminateSubscription` preserves key uniqueness. -/
theorem terminateSubscription_keys_nodup (s : ClientState)
    (h : (s.monitoredItems.map Prod.fst).Nodup) :
    ((terminateSubscription s).1.monitoredItems.map Prod.fst).Nodup := by
  unfold terminateSubscription
  split
  · simp
  · exact h

/-- `closeSession` preserves key uniqueness. -/
theorem closeSession_keys_nodup (s : ClientState)
    (h : (s.monitoredItems.map Prod.fst).Nodup) :
    ((closeSession s).1.monitoredItems.map Prod.fst).Nodup := by
  unfold closeSession
  split
  · split
    · exact h
    · simp
  · exact h

/-- `disconnectClient` preserves key uniqueness. -/
theorem disconnectClient_keys_nodup (s : ClientState)
    (h : (s.monitoredItems.map Prod.fst).Nodup) :
    ((disconnectClient s).1.monitoredItems.map Prod.fst).Nodup := by
  unfold disconnectClient
  split <;> exact h

/-- `connectAndCreateSession` preserves key uniqueness. -/
theorem connectAndCreateSession_keys_nodup (s : ClientState)
    (h : (s.monitoredItems.map Prod.fst).Nodup) :
    ((connectAndCreateSession s).1.monitoredItems.map Prod.fst).Nodup := by
  simp only [connectAndCreateSession, replayCommandQueue]
  exact replayList_keys_nodup _ _ h

/-- `actionConnect` preserves key uniqueness. -/
theorem actionConnect_keys_nodup (s : ClientState) (c : Cmd)
    (h : (s.monitoredItems.map Prod.fst).Nodup) :
    ((actionConnect s c).1.monitoredItems.map Prod.fst).Nodup := by
  simp only [actionConnect]
  split
  · exact connectAndCreateSession_keys_nodup _ (disconnectClient_keys_nodup s h)
  · exact disconnectClient_keys_nodup s h

/-- `actionDisconnect` preserves key uniqueness. -/
theorem actionDisconnect_keys_nodup (s : ClientState) (c : Cmd)
    (h : (s.monitoredItems.map Prod.fst).Nodup) :
    ((actionDisconnect s c).1.monitoredItems.map Prod.fst).Nodup := by
  simp only [actionDisconnect]
  exact disconnectClient_keys_nodup _
    (closeSession_keys_nodup _ (terminateSubscription_keys_nodup s h))

/-- `actionReconnect` preserves key uniqueness. -/
theorem actionReconnect_keys_nodup (s : ClientState) (c : Cmd)
    (h : (s.monitoredItems.map Prod.fst).Nodup) :
    ((actionReconnect s c).1.monitoredItems.map Prod.fst).Nodup := by
  simp only [actionReconnect]
  split
  · exact connectAndCreateSession_keys_nodup _
      (disconnectClient_keys_nodup _
        (closeSession_keys_nodup _ (terminateSubscription_keys_nodup s h)))
  · exact disconnectClient_keys_nodup _
      (closeSession_keys_nodup _ (terminateSubscription_keys_nodup s h))

/-- The close handler preserves key uniqueness. -/
theorem closeHandler_keys_nodup (s : ClientState)
    (h : (s.monitoredItems.map Prod.fst).Nodup) :
    ((closeHandler s).1.monitoredItems.map Prod.fst).Nodup := by
  simp only [closeHandler]
  exact disconnectClient_keys_nodup _
    (closeSession_keys_nodup _ (terminateSubscription_keys_nodup _ h))

/-- Every event of the node's event loop preserves key uniqueness. -/
theorem step_keys_nodup (s : ClientState) (e : Event)
    (h : (s.monitoredItems.map Prod.fst).Nodup) :
    ((step s e).1.monitoredItems.map Prod.fst).Nodup := by
  cases e with
  | input c =>
    simp only [step, inputStep]
    split
    · exact h
    · unfold routeAction
      split
      · exact actionConnect_keys_nodup s c h
      · exact actionDisconnect_keys_nodup s c h
      · exact actionReconnect_keys_nodup s c h
      · unfold routeDataAction
        split
        · exact dispatchHandler_keys_nodup s c h
        · exact h
  | sessionClosed =>
    simp only [step]
    split
    · exact h
    · simp
  | reestablished =>
    simp only [step]
    split
    · exact h
    · split
      · exact connectAndCreateSession_keys_nodup s h
      · exact h
  | closeNode => exact closeHandler_keys_nodup s h
  | notifyChange key =>
    simp only [step]
    split <;> exact h

/-- Traces preserve key uniqueness. -/
theorem runTrace_keys_nodup (evs : List Event) :
    ∀ s : ClientState, (s.monitoredItems.map Prod.fst).Nodup →
      ((runTrace s evs).1.monitoredItems.map Prod.fst).Nodup := by
  induction evs with
  | nil => intro s h; exact h
  | cons e rest ih =>
    intro s h
    simp only [runTrace]
    exact ih _ (step_keys_nodup s e h)

/-- Claim C8: for every sequence of operations, the monitored-item
registry maps each itemKey to at most one handle: key uniqueness is
preserved by every event (adds and removes included), and holds along any
event trace from the initial state. -/
theorem registry_itemKey_unique :
    (∀ (s : ClientState) (e : Event),
      (s.monitoredItems.map Prod.fst).Nodup →
      ((step s e).1.monitoredItems.map Prod.fst).Nodup) ∧
    ∀ evs : List Event,
      ((runTrace initialState evs).1.monitoredItems.map Prod.fst).Nodup :=
  ⟨step_keys_nodup,
   fun evs => runTrace_keys_nodup evs initialState (by simp [initialState])⟩

/-- Witness for C8: re-subscribing an already registered key keeps the
registry keys unique. -/
theorem registry_itemKey_unique_witness :
    ((step oneItemState (Event.input subAgainCmd)).1.monitoredItems.map
        Prod.fst).Nodup :=
  registry_itemKey_unique.1 oneItemState (Event.input subAgainCmd) (by decide)

/-- Witness for the amended C5 at a concrete unknown key. -/
theorem unsubscribe_unknown_keys_silent_noop_witness :
    (actionUnsubscribe unknownKeyState unsubUnknownCmd).1 = unknownKeyState ∧
    (actionUnsubscribe unknownKeyState unsubUnknownCmd).2 =
      [Out.dataMsg "Unsubscribed from 1 item(s)", Out.statusMsg "subscribed",
       Out.cbOk 0] :=
  unsubscribe_unknown_keys_silent_noop unknownKeyState unsubUnknownCmd
    (by decide)

/-- The unsubscribe loop emits no change notification. -/
theorem unsubLoop_no_notif (keys : List String) :
    ∀ (s : ClientState), ∀ o ∈ (unsubLoop s keys).2, o.isNotif = false := by
  induction keys with
  | nil => intro s o ho; simp [unsubLoop] at ho
  | cons k rest ih =>
    intro s o ho
    simp only [unsubLoop] at ho
    rcases hl : lookupItem s.monitoredItems k with _ | hb
    · rw [hl] at ho
      simp only [List.nil_append] at ho
      exact ih s o ho
    · rw [hl] at ho
      rcases hb
      · simp only [Bool.false_eq_true, if_false, List.cons_append,
          List.nil_append, List.mem_cons] at ho
        rcases ho with ho | ho
        · simp [ho, Out.isNotif]
        · exact ih s o ho
      · simp only [if_true, List.nil_append] at ho
        exact ih _ o ho

/-- No action handler emits a change notification (notifications originate
only from live protocol items, via `Event.notifyChange`). -/
theorem dispatchHandler_no_notif (s : ClientState) (c : Cmd) :
    ∀ o ∈ (dispatchHandler s c).2, o.isNotif = false := by
  unfold dispatchHandler
  split
  · unfold actionSubscribe
    split
    · simp [Out.isNotif]
    · split
      · simp [Out.isNotif]
      · split <;> simp [Out.isNotif]
  · unfold actionMonitor
    split
    · simp [Out.isNotif]
    · split <;> simp [Out.isNotif]
  · intro o ho
    unfold actionUnsubscribe at ho
    rcases List.mem_append.mp ho with h1 | h2
    · exact unsubLoop_no_notif c.itemKeys s o h1
    · simp only [List.mem_cons, List.not_mem_nil, or_false] at h2
      rcases h2 with h2 | h2 | h2 <;> simp [h2, Out.isNotif]
  · intro o ho
    unfold actionDeleteSubscription terminateSubscription at ho
    rcases List.mem_append.mp ho with h1 | h2
    · rcases hsub : s.subscription with _ | sub <;> rw [hsub] at h1 <;>
        simp_all [Out.isNotif]
    · simp only [List.mem_cons, List.not_mem_nil, or_false] at h2
      rcases h2 with h2 | h2 | h2 <;> simp [h2, Out.isNotif]
  · unfold actionEvents
    split <;> simp [Out.isNotif]
  · simp
  · simp
  · simp
  · unfold genericSessionAction
    split <;> simp [Out.isNotif]

/-- Routing a non-control action emits no change notification. -/
theorem routeDataAction_no_notif (s : ClientState) (c : Cmd) :
    ∀ o ∈ (routeDataAction s c).2, o.isNotif = false := by
  unfold routeDataAction
  split
  · intro o ho
    rcases List.mem_cons.mp ho with h1 | h2
    · simp [h1, Out.isNotif]
    · exact dispatchHandler_no_notif s c o h2
  · simp [Out.isNotif]

/-- Replay emits no change notification. -/
theorem replayList_no_notif (queued : List Cmd) :
    ∀ (s : ClientState), ∀ o ∈ (replayList s queued).2, o.isNotif = false := by
  induction queued with
  | nil => intro s o ho; simp [replayList] at ho
  | cons c rest ih =>
    intro s o ho
    simp only [replayList] at ho
    rcases List.mem_append.mp ho with h1 | h2
    · exact routeDataAction_no_notif s c o h1
    · exact ih _ o h2

/-- `connectAndCreateSession` emits no change notification. -/
theorem connectAndCreateSession_no_notif (s : ClientState) :
    ∀ o ∈ (connectAndCreateSession s).2, o.isNotif = false := by
  intro o ho
  simp only [connectAndCreateSession, replayCommandQueue, List.cons_append,
    List.nil_append, List.mem_cons] at ho
  rcases ho with ho | ho | ho | ho
  · simp [ho, Out.isNotif]
  · simp [ho, Out.isNotif]
  · simp [ho, Out.isNotif]
  · exact replayList_no_notif _ _ o ho

/-- `terminateSubscription` emits no change notification. -/
theorem terminateSubscription_no_notif (s : ClientState) :
    ∀ o ∈ (terminateSubscription s).2, o.isNotif = false := by
  unfold terminateSubscription
  split <;> simp [Out.isNotif]

/-- `closeSession` emits no change notification. -/
theorem closeSession_no_notif (s : ClientState) :
    ∀ o ∈ (closeSession s).2, o.isNotif = false := by
  unfold closeSession
  split
  · split <;> simp [Out.isNotif]
  · simp

/-- `disconnectClient` emits no change notification. -/
theorem disconnectClient_no_notif (s : ClientState) :
    ∀ o ∈ (disconnectClient s).2, o.isNotif = false := by
  unfold disconnectClient
  split <;> simp

/-- `actionConnect` emits no change notification. -/
theorem actionConnect_no_notif (s : ClientState) (c : Cmd) :
    ∀ o ∈ (actionConnect s c).2, o.isNotif = false := by
  intro o ho
  simp only [actionConnect] at ho
  rcases List.mem_append.mp ho with h1 | h2
  · rcases List.mem_append.mp h1 with h3 | h4
    · rcases List.mem_append.mp h3 with h5 | h6
      · exact disconnectClient_no_notif s o h5
      · simp only [List.mem_singleton] at h6
        simp [h6, Out.isNotif]
    · split at h4
      · exact connectAndCreateSession_no_notif _ o h4
      · simp only [List.mem_singleton] at h4
        simp [h4, Out.isNotif]
  · simp only [List.mem_cons, List.not_mem_nil, or_false] at h2
    rcases h2 with h2 | h2 <;> simp [h2, Out.isNotif]

/-- `actionDisconnect` emits no change notification. -/
theorem actionDisconnect_no_notif (s : ClientState) (c : Cmd) :
    ∀ o ∈ (actionDisconnect s c).2, o.isNotif = false := by
  intro o ho
  simp only [actionDisconnect] at ho
  rcases List.mem_append.mp ho with h1 | h2
  · rcases List.mem_append.mp h1 with h3 | h4
    · rcases List.mem_append.mp h3 with h5 | h6
      · exact terminateSubscription_no_notif _ o h5
      · exact closeSession_no_notif _ o h6
    · exact disconnectClient_no_notif _ o h4
  · simp only [List.mem_cons, List.not_mem_nil, or_false] at h2
    rcases h2 with h2 | h2 | h2 <;> simp [h2, Out.isNotif]

/-- `actionReconnect` emits no change notification. -/
theorem actionReconnect_no_notif (s : ClientState) (c : Cmd) :
    ∀ o ∈ (actionReconnect s c).2, o.isNotif = false := by
  intro o ho
  simp only [actionReconnect] at ho
  rcases List.mem_append.mp ho with h1 | h2
  · rcases List.mem_append.mp h1 with h3 | h4
    · rcases List.mem_append.mp h3 with h5 | h6
      · rcases List.mem_append.mp h5 with h7 | h8
        · rcases List.mem_append.mp h7 with h9 | h10
          · exact terminateSubscription_no_notif _ o h9
          · exact closeSession_no_notif _ o h10
        · exact disconnectClient_no_notif _ o h8
      · simp only [List.mem_singleton] at h6
        simp [h6, Out.isNotif]
    · split at h4
      · exact connectAndCreateSession_no_notif _ o h4
      · simp only [List.mem_singleton] at h4
        simp [h4, Out.isNotif]
  · simp only [List.mem_cons, List.not_mem_nil, or_false] at h2
    rcases h2 with h2 | h2 <;> simp [h2, Out.isNotif]

/-- The close handler emits no change notification. -/
theorem closeHandler_no_notif (s : ClientState) :
    ∀ o ∈ (closeHandler s).2, o.isNotif = false := by
  intro o ho
  simp only [closeHandler] at ho
  rcases List.mem_append.mp ho with h1 | h2
  · rcases List.mem_append.mp h1 with h3 | h4
    · exact terminateSubscription_no_notif _ o h3
    · exact closeSession_no_notif _ o h4
  · exact disconnectClient_no_notif _ o h2

/-- The unsubscribe loop keeps a cleared registry cleared. -/
theorem unsubLoop_cleared (keys : List String) :
    ∀ s : ClientState, ClearedRegistry s →
      ClearedRegistry (unsubLoop s keys).1 := by
  induction keys with
  | nil => intro s h; exact h
  | cons k rest ih =>
    intro s h
    simp only [unsubLoop]
    rcases hl : lookupItem s.monitoredItems k with _ | hb
    · exact ih s h
    · rcases hb
      · exact ih s h
      · apply ih
        obtain ⟨h1, h2, h3⟩ := h
        refine ⟨?_, ?_, h3⟩
        · show s.liveItems.erase k = []
          rw [h1]
          rfl
        · show mapDelete s.monitoredItems k = []
          rw [h2]
          rfl

/-- Every non-item-creating handler keeps a cleared registry cleared. -/
theorem dispatchHandler_cleared (s : ClientState) (c : Cmd)
    (hc : isItemCreating c.action = false) (h : ClearedRegistry s) :
    ClearedRegistry (dispatchHandler s c).1 := by
  unfold dispatchHandler
  split
  · rename_i heq
    rw [heq] at hc
    simp [isItemCreating] at hc
  · rename_i heq
    rw [heq] at hc
    simp [isItemCreating] at hc
  · exact unsubLoop_cleared c.itemKeys s h
  · unfold actionDeleteSubscription terminateSubscription
    split
    · exact ⟨rfl, rfl, h.2.2⟩
    · exact h
  · rename_i heq
    rw [heq] at hc
    simp [isItemCreating] at hc
  · exact h
  · exact h
  · exact h
  · unfold genericSessionAction
    split <;> exact h

/-- Routing a non-item-creating action keeps a cleared registry cleared. -/
theorem routeDataAction_cleared (s : ClientState) (c : Cmd)
    (hc : isItemCreating c.action = false) (h : ClearedRegistry s) :
    ClearedRegistry (routeDataAction s c).1 := by
  unfold routeDataAction
  split
  · exact dispatchHandler_cleared s c hc h
  · exact h

/-- Replaying non-item-creating commands keeps a cleared registry
cleared. -/
theorem replayList_cleared (queued : List Cmd) :
    ∀ s : ClientState, (∀ c ∈ queued, isItemCreating c.action = false) →
      ClearedRegistry s → ClearedRegistry (replayList s queued).1 := by
  induction queued with
  | nil => intro s _ h; exact h
  | cons c rest ih =>
    intro s hq h
    simp only [replayList]
    exact ih _ (fun c' h' => hq c' (List.mem_cons_of_mem _ h'))
      (routeDataAction_cleared s c (hq c (List.mem_cons_self _ _)) h)

/-- `connectAndCreateSession` keeps a cleared registry cleared: the replay
it triggers re-executes only the already-pending (non-item-creating)
commands; it never re-creates monitored items on its own. -/
theorem connectAndCreateSession_cleared (s : ClientState)
    (h : ClearedRegistry s) :
    ClearedRegistry (connectAndCreateSession s).1 := by
  simp only [connectAndCreateSession, replayCommandQueue]
  exact replayList_cleared s.cmdQueue _ h.2.2
    ⟨h.1, h.2.1, by intro c hc; simp at hc⟩

/-- `terminateSubscription` keeps a cleared registry cleared. -/
theorem terminateSubscription_cleared (s : ClientState)
    (h : ClearedRegistry s) :
    ClearedRegistry (terminateSubscription s).1 := by
  unfold terminateSubscription
  split
  · exact ⟨rfl, rfl, h.2.2⟩
  · exact h

/-- `closeSession` keeps a cleared registry cleared. -/
theorem closeSession_cleared (s : ClientState) (h : ClearedRegistry s) :
    ClearedRegistry (closeSession s).1 := by
  unfold closeSession
  split
  · split
    · exact ⟨rfl, h.2.1, h.2.2⟩
    · exact ⟨rfl, rfl, h.2.2⟩
  · exact h

/-- `disconnectClient` keeps a cleared registry cleared. -/
theorem disconnectClient_cleared (s : ClientState) (h : ClearedRegistry s) :
    ClearedRegistry (disconnectClient s).1 := by
  unfold disconnectClient
  split <;> exact h

/-- `actionConnect` keeps a cleared registry cleared. -/
theorem actionConnect_cleared (s : ClientState) (c : Cmd)
    (h : ClearedRegistry s) : ClearedRegistry (actionConnect s c).1 := by
  simp only [actionConnect]
  split
  · exact connectAndCreateSession_cleared _ (disconnectClient_cleared s h)
  · exact disconnectClient_cleared s h

/-- `actionDisconnect` keeps a cleared registry cleared. -/
theorem actionDisconnect_cleared (s : ClientState) (c : Cmd)
    (h : ClearedRegistry s) : ClearedRegistry (actionDisconnect s c).1 := by
  simp only [actionDisconnect]
  exact disconnectClient_cleared _
    (closeSession_cleared _ (terminateSubscription_cleared s h))

/-- `actionReconnect` keeps a cleared registry cleared. -/
theorem actionReconnect_cleared (s : ClientState) (c : Cmd)
    (h : ClearedRegistry s) : ClearedRegistry (actionReconnect s c).1 := by
  simp only [actionReconnect]
  split
  · exact connectAndCreateSession_cleared _
      (disconnectClient_cleared _
        (closeSession_cleared _ (terminateSubscription_cleared s h)))
  · exact disconnectClient_cleared _
      (closeSession_cleared _ (terminateSubscription_cleared s h))

/-- The close handler keeps a cleared registry cleared. -/
theorem closeHandler_cleared (s : ClientState) (h : ClearedRegistry s) :
    ClearedRegistry (closeHandler s).1 := by
  simp only [closeHandler]
  exact disconnectClient_cleared _
    (closeSession_cleared _ (terminateSubscription_cleared _ ⟨h.1, h.2.1, h.2.2⟩))

/-- A step that is not a caller-issued subscribe/monitor/events submission
keeps the registry cleared and delivers no change notification. -/
theorem step_cleared (s : ClientState) (e : Event)
    (he : isSubscribeLike e = false) (h : ClearedRegistry s) :
    ClearedRegistry (step s e).1 ∧ ∀ o ∈ (step s e).2, o.isNotif = false := by
  cases e with
  | input c =>
    have hc : isItemCreating c.action = false := by
      simpa [isSubscribeLike] using he
    simp only [step, inputStep]
    split
    · refine ⟨⟨h.1, h.2.1, ?_⟩, by simp⟩
      intro c' hc'
      rcases List.mem_append.mp hc' with h1 | h2
      · exact h.2.2 c' h1
      · simp only [List.mem_singleton] at h2
        subst h2
        exact hc
    · unfold routeAction
      split
      · refine ⟨actionConnect_cleared s c h, ?_⟩
        intro o ho
        rcases List.mem_cons.mp ho with h1 | h2
        · simp [h1, Out.isNotif]
        · exact actionConnect_no_notif s c o h2
      · refine ⟨actionDisconnect_cleared s c h, ?_⟩
        intro o ho
        rcases List.mem_cons.mp ho with h1 | h2
        · simp [h1, Out.isNotif]
        · exact actionDisconnect_no_notif s c o h2
      · refine ⟨actionReconnect_cleared s c h, ?_⟩
        intro o ho
        rcases List.mem_cons.mp ho with h1 | h2
        · simp [h1, Out.isNotif]
        · exact actionReconnect_no_notif s c o h2
      · exact ⟨routeDataAction_cleared s c hc h, routeDataAction_no_notif s c⟩
  | sessionClosed =>
    simp only [step]
    split
    · exact ⟨h, by simp⟩
    · exact ⟨⟨rfl, rfl, h.2.2⟩, by simp [Out.isNotif]⟩
  | reestablished =>
    simp only [step]
    split
    · exact ⟨h, by simp⟩
    · split
      · refine ⟨connectAndCreateSession_cleared s h, ?_⟩
        intro o ho
        rcases List.mem_cons.mp ho with h1 | h2
        · simp [h1, Out.isNotif]
        · exact connectAndCreateSession_no_notif s o h2
      · exact ⟨h, by simp [Out.isNotif]⟩
  | closeNode => exact ⟨closeHandler_cleared s h, closeHandler_no_notif s⟩
  | notifyChange key =>
    simp only [step]
    split
    · rename_i hk
      rw [h.1] at hk
      simp at hk
    · exact ⟨h, by simp⟩

/-- A trace without caller-issued subscribe-like submissions keeps the
registry cleared and delivers no change notification. -/
theorem runTrace_cleared (evs : List Event) :
    ∀ s : ClientState, (∀ e ∈ evs, isSubscribeLike e = false) →
      ClearedRegistry s →
      ClearedRegistry (runTrace s evs).1 ∧
      ∀ o ∈ (runTrace s evs).2, o.isNotif = false := by
  induction evs with
  | nil => intro s _ h; exact ⟨h, by simp [runTrace]⟩
  | cons e rest ih =>
    intro s hevs h
    have hstep := step_cleared s e (hevs e (List.mem_cons_self _ _)) h
    have hrest := ih _ (fun e' h' => hevs e' (List.mem_cons_of_mem _ h'))
      hstep.1
    refine ⟨hrest.1, ?_⟩
    intro o ho
    simp only [runTrace] at ho
    rcases List.mem_append.mp ho with h1 | h2
    · exact hstep.2 o h1
    · exact hrest.2 o h2

/-- Claim C3: after a transport loss clears the session (the
`session_closed` handler empties the subscription and the monitored-item
registry), any following trace that contains no caller-issued
subscribe/monitor/events request — automatic reconnections included —
leaves the registry and the live protocol items empty and delivers no
change notification for any previously subscribed item: the core never
re-creates monitored items on its own. -/
theorem no_notifications_after_session_loss (s : ClientState)
    (evs : List Event)
    (hclos : s.isClosing = false)
    (hq : ∀ c ∈ s.cmdQueue, isItemCreating c.action = false)
    (hevs : ∀ e ∈ evs, isSubscribeLike e = false) :
    (runTrace (step s Event.sessionClosed).1 evs).1.liveItems = [] ∧
    (runTrace (step s Event.sessionClosed).1 evs).1.monitoredItems = [] ∧
    ∀ o ∈ (runTrace (step s Event.sessionClosed).1 evs).2,
      o.isNotif = false := by
  have h1 : ClearedRegistry (step s Event.sessionClosed).1 := by
    simp only [step, hclos, Bool.false_eq_true, if_false]
    exact ⟨rfl, rfl, hq⟩
  have h2 := runTrace_cleared evs _ hevs h1
  exact ⟨h2.1.1, h2.1.2.1, h2.2⟩

/-- Witness for C3: an item subscribed before the loss yields no further
notification through an automatic reconnection and a protocol
change-delivery attempt. -/
theorem no_notifications_after_session_loss_witness :
    (runTrace (step lostItemState Event.sessionClosed).1
        [Event.reestablished, Event.notifyChange "Y"]).1.liveItems = [] ∧
    (runTrace (step lostItemState Event.sessionClosed).1
        [Event.reestablished, Event.notifyChange "Y"]).1.monitoredItems
      = [] :=
  ⟨(no_notifications_after_session_loss lostItemState
      [Event.reestablished, Event.notifyChange "Y"] rfl (by decide)
      (by decide)).1,
   (no_notifications_after_session_loss lostItemState
      [Event.reestablished, Event.notifyChange "Y"] rfl (by decide)
      (by decide)).2.1⟩

end Opcua
